import Mathlib

/-!
Shallow embedding of the terra-metrics-dash analytics core
(src/backend/inference.py, src/backend/satellite_service.py,
src/backend/main.py).  Python floats are idealised as `ℚ` where the code is
exact arithmetic, and as `ℝ` where a square root is taken (`np.std`).
Fallible code is modelled with `Except`; the opaque CNN/LSTM scorers are
parameters of the engine structure, since their weights are external
artefacts.
-/

/-- Python `round(x, 1)` scaled part: round to nearest integer, ties to even
(banker's rounding). -/
def roundHalfEven (x : ℚ) : ℤ :=
  if x - ⌊x⌋ < 1/2 then ⌊x⌋
  else if 1/2 < x - ⌊x⌋ then ⌊x⌋ + 1
  else if ⌊x⌋ % 2 = 0 then ⌊x⌋ else ⌊x⌋ + 1

/-- Python `round(x, 1)`: round to one decimal digit, ties to even. -/
def round1 (x : ℚ) : ℚ := (roundHalfEven (10 * x) : ℚ) / 10

/-- np.mean of a list (sum divided by length; 0 on the empty list since
`ℚ` division by zero is zero — the sources only apply it to non-empty data). -/
def npMean (l : List ℚ) : ℚ := l.sum / l.length

/-- np.var: population variance, the mean of the squared deviations. -/
def npVar (l : List ℚ) : ℚ := npMean (l.map (fun x => (x - npMean l) ^ 2))

/-- np.std: population standard deviation, square root of `npVar`. -/
noncomputable def npStd (l : List ℚ) : ℝ := Real.sqrt (npVar l)

/-- np.min of a list (the sources only apply it to non-empty data). -/
def npMin : List ℚ → ℚ
  | [] => 0
  | x :: xs => xs.foldl min x

/-- np.max of a list (the sources only apply it to non-empty data). -/
def npMax : List ℚ → ℚ
  | [] => 0
  | x :: xs => xs.foldl max x

/-- np.clip(x, lo, hi). -/
def npClip (x lo hi : ℚ) : ℚ := max lo (min x hi)

/-- A Python/NumPy float value: either an exact finite value or one of the
non-finite sentinels.  `np.isfinite` is true exactly on `fin`. -/
inductive FloatVal where
  | fin (x : ℚ)
  | nan
  | inf
  | neginf
deriving DecidableEq

/-- np.isfinite for a single value. -/
def FloatVal.isFinite : FloatVal → Bool
  | .fin _ => true
  | _ => false

/-- `ndvi_array[np.isfinite(ndvi_array)]`: keep the finite values. -/
def finiteVals (l : List FloatVal) : List ℚ :=
  l.filterMap (fun v => match v with | .fin x => some x | _ => none)

/-- One sensor reading (`SensorReading` in src/backend/main.py); inference.py
reads the dict keys with `.get` and a default, so every attribute is optional
here. -/
structure SensorReading where
  timestamp : Option String
  field_id : Option String
  temperature : Option ℚ
  humidity : Option ℚ
  soil_moisture : Option ℚ
  ph_level : Option ℚ
  nitrogen : Option ℚ
  phosphorus : Option ℚ
  potassium : Option ℚ

/-- The feature dictionary built by
`AgriculturalInference._extract_health_features`. -/
structure FieldFeatures where
  avg_temperature : ℚ
  avg_humidity : ℚ
  avg_soil_moisture : ℚ
  avg_ph : ℚ
  temp_variance : ℚ
  humidity_variance : ℚ
  moisture_trend : ℚ
  ph_stability : ℝ

/-- Result dictionary of `AgriculturalInference.predict_field_health`. -/
structure HealthPrediction where
  health_score : ℚ
  confidence : ℚ
  recommendations : List String
  risk_factors : List String
  timestamp : String
deriving DecidableEq

/-- The `growth_data` dict of `AgriculturalInference.predict_yield`: only the
presence of its known top-level keys is observed by the code. -/
structure GrowthData where
  has_weather_data : Bool
  has_soil_quality : Bool
  has_pest_pressure : Bool
  has_nutrient_levels : Bool
  has_historical_data : Bool
deriving DecidableEq

/-- Result dictionary of `AgriculturalInference.predict_yield`. -/
structure YieldPrediction where
  yield_per_hectare : ℚ
  confidence : ℚ
  key_factors : List String
  trend : String
  recommendations : List String
deriving DecidableEq

/-- `AgriculturalInference._calculate_trend`, slope part:
the degree-1 least-squares coefficient of `np.polyfit(x, values, 1)` with
`x = np.arange(len(values))`, written with the normal-equations formula. -/
def polyfitSlope (values : List ℚ) : ℚ :=
  let n : ℚ := values.length
  let sx : ℚ := ∑ i ∈ Finset.range values.length, (i : ℚ)
  let sxx : ℚ := ∑ i ∈ Finset.range values.length, (i : ℚ) ^ 2
  let sy : ℚ := ∑ i ∈ Finset.range values.length, values.getD i 0
  let sxy : ℚ := ∑ i ∈ Finset.range values.length, (i : ℚ) * values.getD i 0
  (n * sxy - sx * sy) / (n * sxx - sx ^ 2)

/-- `AgriculturalInference._calculate_trend`: 0 for fewer than 2 values, else
the least-squares slope divided by 10 and clipped to [-1, 1]. -/
def calculateTrend (values : List ℚ) : ℚ :=
  if values.length < 2 then 0
  else npClip (polyfitSlope values / 10) (-1) 1

/-- `AgriculturalInference._extract_health_features`.  The source returns an
empty dict for an empty input list; that case is unreachable from
`predict_field_health` (which raises first), so the embedding is total with
the same formulas. -/
noncomputable def extractHealthFeatures (sensor_data : List SensorReading) : FieldFeatures :=
  let temperatures := sensor_data.map (fun d => d.temperature.getD 20)
  let humidities := sensor_data.map (fun d => d.humidity.getD 50)
  let soil_moistures := sensor_data.map (fun d => d.soil_moisture.getD 40)
  let ph_levels := sensor_data.map (fun d => d.ph_level.getD 6.5)
  { avg_temperature := npMean temperatures
    avg_humidity := npMean humidities
    avg_soil_moisture := npMean soil_moistures
    avg_ph := npMean ph_levels
    temp_variance := npVar temperatures
    humidity_variance := npVar humidities
    moisture_trend := calculateTrend soil_moistures
    ph_stability := 1 / (npStd ph_levels + 0.1) }

/-- `AgriculturalInference._generate_health_recommendations`. -/
def generateHealthRecommendations (health_score : ℚ) (features : FieldFeatures) :
    List String :=
  let recommendations :=
    (if health_score < 70 then
      ["Immediate intervention required", "Increase monitoring frequency"] else []) ++
    (if features.avg_soil_moisture < 40 then ["Increase irrigation"] else []) ++
    (if features.avg_ph < 6.0 ∨ features.avg_ph > 7.0 then
      ["Adjust soil pH levels"] else []) ++
    (if features.temp_variance > 50 then ["Monitor temperature stability"] else [])
  if recommendations = [] then
    ["Field conditions are optimal", "Continue current management practices"]
  else recommendations

open Classical in
/-- `AgriculturalInference._identify_risk_factors`. -/
noncomputable def identifyRiskFactors (features : FieldFeatures) : List String :=
  (if features.avg_temperature > 30 then ["High temperature stress"] else []) ++
  (if features.avg_humidity > 80 then ["High humidity - disease risk"] else []) ++
  (if features.avg_soil_moisture < 30 then ["Water stress"] else []) ++
  (if features.ph_stability < 0.5 then ["Unstable soil pH"] else [])

/-- `AgriculturalInference._analyze_yield_factors`. -/
def analyzeYieldFactors (growth_data : GrowthData) : List String :=
  let factors :=
    (if growth_data.has_weather_data then ["Weather conditions"] else []) ++
    (if growth_data.has_soil_quality then ["Soil quality"] else []) ++
    (if growth_data.has_pest_pressure then ["Pest pressure"] else []) ++
    (if growth_data.has_nutrient_levels then ["Nutrient availability"] else [])
  if factors = [] then
    ["Weather conditions", "Soil quality", "Pest pressure", "Management practices"]
  else factors

/-- `AgriculturalInference._calculate_yield_trend` (a hardcoded placeholder in
the source). -/
def calculateYieldTrend (_ : GrowthData) : String := "stable"

/-- `AgriculturalInference._generate_yield_recommendations`. -/
def generateYieldRecommendations (predicted_yield : ℚ) (key_factors : List String) :
    List String :=
  let recommendations :=
    (if predicted_yield < 80 then
      ["Optimize irrigation schedule", "Review fertilizer application"] else []) ++
    (if "Weather conditions" ∈ key_factors then
      ["Monitor weather forecasts closely"] else []) ++
    (if "Pest pressure" ∈ key_factors then
      ["Implement integrated pest management"] else [])
  if recommendations = [] then
    ["Continue current practices", "Monitor for optimization opportunities"]
  else recommendations

/-- The engine state of `AgriculturalInference`: the load flag and the two
opaque model scorers.  `cnn` stands for the composition of
`_generate_synthetic_image_data` (which draws random numbers) with
`self.cnn_model.predict`, so it is an arbitrary, possibly failing function of
the features; likewise `lstm` for `_process_growth_data` plus
`self.lstm_model.predict`. -/
structure AgriculturalInference where
  models_loaded : Bool
  cnn : FieldFeatures → Except String ℚ
  lstm : GrowthData → Except String ℚ

/-- The fixed fallback returned by `predict_field_health` from its
`except Exception` handler. -/
def fallbackHealthPrediction : HealthPrediction :=
  { health_score := 75.0
    confidence := 60.0
    recommendations := ["Monitor field conditions closely", "Check sensor readings"]
    risk_factors := ["Data processing error"]
    timestamp := "" }

/-- The fixed fallback returned by `predict_yield` from its
`except Exception` handler. -/
def fallbackYieldPrediction : YieldPrediction :=
  { yield_per_hectare := 85.0
    confidence := 60.0
    key_factors := ["Weather conditions", "Soil quality", "Pest pressure"]
    trend := "stable"
    recommendations := ["Optimize irrigation", "Monitor soil nutrients"] }

/-- `AgriculturalInference.predict_field_health`.  The source wraps the whole
body in `try/except Exception`, returning the fallback dict on any raise
(models not loaded, empty input, scorer failure), so the embedding is a total
function; the raise sites become the fallback branches. -/
noncomputable def predictFieldHealth (eng : AgriculturalInference)
    (sensor_data : List SensorReading) : HealthPrediction :=
  if eng.models_loaded = false then fallbackHealthPrediction
  else if sensor_data.isEmpty then fallbackHealthPrediction
  else
    let features := extractHealthFeatures sensor_data
    match eng.cnn features with
    | .error _ => fallbackHealthPrediction
    | .ok p =>
      let health_score := p * 100
      { health_score := round1 health_score
        confidence := round1 (min 95 (max 70 health_score))
        recommendations := generateHealthRecommendations health_score features
        risk_factors := identifyRiskFactors features
        timestamp := ((sensor_data.getLast?).map (fun d => d.timestamp.getD "")).getD "" }

/-- `AgriculturalInference.predict_yield`, with the same `try/except`
fallback structure as `predict_field_health`. -/
def predictYield (eng : AgriculturalInference) (growth_data : GrowthData) :
    YieldPrediction :=
  if eng.models_loaded = false then fallbackYieldPrediction
  else
    match eng.lstm growth_data with
    | .error _ => fallbackYieldPrediction
    | .ok predicted_yield =>
      { yield_per_hectare := round1 predicted_yield
        confidence := round1 (min 90 (max 65 (predicted_yield * 0.8)))
        key_factors := analyzeYieldFactors growth_data
        trend := calculateYieldTrend growth_data
        recommendations :=
          generateYieldRecommendations predicted_yield (analyzeYieldFactors growth_data) }

/-- One pixel of the NDVI evalscript of
`SatelliteService.fetch_ndvi_image`: `(nir - red) / (nir + red)`, with any
non-finite result (the denominator-zero case) replaced by the sentinel 0. -/
def computeIndexPixel (red nir : ℚ) : ℚ :=
  if nir + red = 0 then 0 else (nir - red) / (nir + red)

/-- The evalscript applied to a whole two-band raster, pixel by pixel
(pairs are (B04 red, B08 nir)). -/
def computeIndex (bands : List (ℚ × ℚ)) : List ℚ :=
  bands.map (fun p => computeIndexPixel p.1 p.2)

/-- Statistics record of `SatelliteService.get_ndvi_statistics`. -/
structure NDVIStats where
  mean : ℚ
  min : ℚ
  max : ℚ
  std : ℝ
  valid_pixels : ℕ
  total_pixels : ℕ

/-- `SatelliteService.get_ndvi_statistics`: filter to the finite values; if
none remain, the all-zero record with the input size as `total_pixels`; else
mean, min, max and population standard deviation of the finite subset with the
two pixel counts. -/
noncomputable def getNdviStatistics (ndvi_array : List FloatVal) : NDVIStats :=
  let valid_ndvi := finiteVals ndvi_array
  if valid_ndvi.length = 0 then
    { mean := 0, min := 0, max := 0, std := 0
      valid_pixels := 0, total_pixels := ndvi_array.length }
  else
    { mean := npMean valid_ndvi
      min := npMin valid_ndvi
      max := npMax valid_ndvi
      std := npStd valid_ndvi
      valid_pixels := valid_ndvi.length
      total_pixels := ndvi_array.length }

/-- Truncating float-to-uint8 conversion (`.astype(np.uint8)` casts toward
zero; in `ndvi_to_png_base64` its argument is already in [0, 255], where the
cast agrees with the floor). -/
def truncToUint8 (x : ℚ) : ℕ := (⌊x⌋).toNat

/-- Intensity of one pixel in `SatelliteService.ndvi_to_png_base64`:
clip the index to [-1, 1], then map through `((value + 1) / 2) * 255` and cast
to uint8. -/
def ndviPixelIntensity (v : ℚ) : ℕ :=
  truncToUint8 ((npClip v (-1) 1 + 1) / 2 * 255)

/-- The intensity raster built by `SatelliteService.ndvi_to_png_base64`
(the PNG/base64 byte serialisation of these intensities is not modelled). -/
def ndviToPngIntensities (ndvi_array : List ℚ) : List ℕ :=
  ndvi_array.map ndviPixelIntensity

/-- The Python exception classes that can cross `get_ndvi_analysis`'s `try`
block. -/
inductive PyExc where
  | httpException (status : ℕ) (detail : String)
  | valueError (msg : String)
  | exc (msg : String)
deriving DecidableEq

/-- Python `str(e)` for the exceptions above (Starlette's
`HTTPException.__str__` prints "status: detail"). -/
def PyExc.str : PyExc → String
  | .httpException status detail => Nat.repr status ++ ": " ++ detail
  | .valueError msg => msg
  | .exc msg => msg

/-- The response assembled by `get_ndvi_analysis` (database id, created_at and
the base64 image string are owned by collaborators and not modelled). -/
structure NdviResponse where
  min_lat : ℚ
  min_lon : ℚ
  max_lat : ℚ
  max_lon : ℚ
  statistics : NDVIStats

/-- The body of `get_ndvi_analysis`'s `try` block (src/backend/main.py,
lines 464-521): the three validation checks raise `HTTPException(400, ...)`,
then the satellite fetch (an opaque collaborator, passed as `fetch`) runs and
the statistics are computed. -/
noncomputable def ndviBody (fetch : List ℚ → Except PyExc (List FloatVal))
    (min_lat min_lon max_lat max_lon : ℚ) : Except PyExc NdviResponse :=
  if min_lat ≥ max_lat ∨ min_lon ≥ max_lon then
    .error (.httpException 400 "Invalid bounding box: min values must be less than max values")
  else if ¬(-90 ≤ min_lat ∧ min_lat ≤ 90) ∨ ¬(-90 ≤ max_lat ∧ max_lat ≤ 90) then
    .error (.httpException 400 "Latitude must be between -90 and 90")
  else if ¬(-180 ≤ min_lon ∧ min_lon ≤ 180) ∨ ¬(-180 ≤ max_lon ∧ max_lon ≤ 180) then
    .error (.httpException 400 "Longitude must be between -180 and 180")
  else
    match fetch [min_lon, min_lat, max_lon, max_lat] with
    | .error e => .error e
    | .ok ndvi_array =>
      .ok { min_lat := min_lat, min_lon := min_lon
            max_lat := max_lat, max_lon := max_lon
            statistics := getNdviStatistics ndvi_array }

/-- `get_ndvi_analysis` as seen by its caller: the `try` body followed by the
two handlers `except ValueError` (mapped to HTTP 400) and `except Exception`
(mapped to HTTP 500).  An `HTTPException` raised by the validators inside the
`try` block is itself an `Exception` and not a `ValueError`, so it is caught
by the second handler and re-wrapped. -/
noncomputable def getNdviAnalysis (fetch : List ℚ → Except PyExc (List FloatVal))
    (min_lat min_lon max_lat max_lon : ℚ) : Except (ℕ × String) NdviResponse :=
  match ndviBody fetch min_lat min_lon max_lat max_lon with
  | .ok r => .ok r
  | .error (.valueError msg) => .error (400, msg)
  | .error e => .error (500, "NDVI analysis failed: " ++ e.str)

/-- A sensor reading with every attribute absent (every `.get` default is
taken). -/
def emptyReading : SensorReading :=
  ⟨none, none, none, none, none, none, none, none, none⟩

/-- A reading with explicit values, used to instantiate theorems. -/
def sampleReading : SensorReading :=
  ⟨some "2025-01-15T12:30:00Z", some "field_001", some 25, some 60, some 55,
    some 6.5, some 30, some 15, some 25⟩

/-- Engine whose models failed to load (`models_loaded = False`). -/
def engNoModels : AgriculturalInference :=
  ⟨false, fun _ => .ok (1/2), fun _ => .ok 100⟩

/-- Loaded engine whose scorers succeed with fixed in-contract outputs. -/
def engOk : AgriculturalInference :=
  ⟨true, fun _ => .ok (1/2), fun _ => .ok 100⟩

/-- Loaded engine whose LSTM head outputs a negative raw yield (the model has
a linear output layer, so negative outputs are possible). -/
def engNegYield : AgriculturalInference :=
  ⟨true, fun _ => .ok (1/2), fun _ => .ok (-5)⟩

/-- Loaded engine whose CNN scorer raises. -/
def engCnnFails : AgriculturalInference :=
  ⟨true, fun _ => .error "predict failed", fun _ => .ok 100⟩

/-- A growth-data record with none of the known keys present. -/
def emptyGrowthData : GrowthData := ⟨false, false, false, false, false⟩

/-- A fetch collaborator that returns a fixed one-pixel raster. -/
def fetchDummy : List ℚ → Except PyExc (List FloatVal) :=
  fun _ => .ok [FloatVal.fin 0]

/-- Whether an `Except` value is a success. -/
def exceptIsOk {ε α : Type} : Except ε α → Bool
  | .ok _ => true
  | .error _ => false

/-- Features that fire the low-moisture rule (and, with a score below 70, the
low-score rule) but no other rule. -/
def featuresLow : FieldFeatures := ⟨25, 60, 30, 6.5, 10, 5, 0, 1⟩

/-- Features that fire no recommendation rule. -/
def featuresOpt : FieldFeatures := ⟨25, 60, 50, 6.5, 10, 5, 0, 1⟩

/-- A raster mixing finite and non-finite pixels. -/
def arrMixed : List FloatVal := [.fin 1, .nan, .fin 3]

/-- A raster of two finite pixels. -/
def arrTwo : List FloatVal := [.fin 2, .fin 4]

/-- One pixel with red = nir = 0 (zero NDVI denominator). -/
def bandsZero : List (ℚ × ℚ) := [(0, 0)]

/-- A zero-denominator pixel next to an ordinary one. -/
def bandsTwo : List (ℚ × ℚ) := [(0, 0), (1, 3)]

theorem floor_le_roundHalfEven (x : ℚ) : ⌊x⌋ ≤ roundHalfEven x := by
  unfold roundHalfEven
  split_ifs <;> omega

theorem roundHalfEven_le_ceil (x : ℚ) : roundHalfEven x ≤ ⌈x⌉ := by
  unfold roundHalfEven
  have hfc := Int.floor_le_ceil x
  split_ifs with h1 h2 h3
  · exact hfc
  · have hx : (⌊x⌋ : ℚ) < x := by linarith
    have := Int.lt_ceil.mpr hx
    omega
  · exact hfc
  · have hx : (⌊x⌋ : ℚ) < x := by
      have : (1 : ℚ)/2 ≤ x - ⌊x⌋ := le_of_not_lt h1
      linarith
    have := Int.lt_ceil.mpr hx
    omega

theorem le_round1 {n : ℤ} {x : ℚ} (h : (n : ℚ) ≤ x) : (n : ℚ) ≤ round1 x := by
  have h10 : (10 * n : ℤ) ≤ ⌊10 * x⌋ := Int.le_floor.mpr (by push_cast; linarith)
  have h2 : (10 * n : ℤ) ≤ roundHalfEven (10 * x) :=
    le_trans h10 (floor_le_roundHalfEven _)
  have h3 : ((10 * n : ℤ) : ℚ) ≤ (roundHalfEven (10 * x) : ℚ) := Int.cast_le.mpr h2
  rw [round1, le_div_iff₀ (by norm_num : (0:ℚ) < 10)]
  push_cast at h3 ⊢
  linarith

theorem round1_le {n : ℤ} {x : ℚ} (h : x ≤ (n : ℚ)) : round1 x ≤ (n : ℚ) := by
  have h10 : ⌈10 * x⌉ ≤ (10 * n : ℤ) := Int.ceil_le.mpr (by push_cast; linarith)
  have h2 : roundHalfEven (10 * x) ≤ (10 * n : ℤ) :=
    le_trans (roundHalfEven_le_ceil _) h10
  have h3 : (roundHalfEven (10 * x) : ℚ) ≤ ((10 * n : ℤ) : ℚ) := Int.cast_le.mpr h2
  rw [round1, div_le_iff₀ (by norm_num : (0:ℚ) < 10)]
  push_cast at h3 ⊢
  linarith

theorem foldl_min_le_init (xs : List ℚ) (a : ℚ) : xs.foldl min a ≤ a := by
  induction xs generalizing a with
  | nil => simp
  | cons x xs ih =>
    calc (x :: xs).foldl min a = xs.foldl min (min a x) := rfl
      _ ≤ min a x := ih _
      _ ≤ a := min_le_left _ _

theorem foldl_min_le_mem {x : ℚ} {xs : List ℚ} (a : ℚ) (h : x ∈ xs) :
    xs.foldl min a ≤ x := by
  induction xs generalizing a with
  | nil => cases h
  | cons y ys ih =>
    rcases List.mem_cons.mp h with rfl | hmem
    · calc (x :: ys).foldl min a = ys.foldl min (min a x) := rfl
        _ ≤ min a x := foldl_min_le_init _ _
        _ ≤ x := min_le_right _ _
    · exact ih _ hmem

theorem foldl_min_choice (xs : List ℚ) (a : ℚ) :
    xs.foldl min a = a ∨ xs.foldl min a ∈ xs := by
  induction xs generalizing a with
  | nil => exact Or.inl rfl
  | cons y ys ih =>
    have : (y :: ys).foldl min a = ys.foldl min (min a y) := rfl
    rw [this]
    rcases ih (min a y) with heq | hmem
    · rw [heq]
      rcases min_choice a y with h | h
      · exact Or.inl h
      · exact Or.inr (by rw [h]; exact List.mem_cons_self _ _)
    · exact Or.inr (List.mem_cons_of_mem _ hmem)

theorem init_le_foldl_max (xs : List ℚ) (a : ℚ) : a ≤ xs.foldl max a := by
  induction xs generalizing a with
  | nil => simp
  | cons x xs ih =>
    calc a ≤ max a x := le_max_left _ _
      _ ≤ xs.foldl max (max a x) := ih _
      _ = (x :: xs).foldl max a := rfl

theorem mem_le_foldl_max {x : ℚ} {xs : List ℚ} (a : ℚ) (h : x ∈ xs) :
    x ≤ xs.foldl max a := by
  induction xs generalizing a with
  | nil => cases h
  | cons y ys ih =>
    rcases List.mem_cons.mp h with rfl | hmem
    · calc x ≤ max a x := le_max_right _ _
        _ ≤ ys.foldl max (max a x) := init_le_foldl_max _ _
        _ = (x :: ys).foldl max a := rfl
    · exact ih _ hmem

theorem foldl_max_choice (xs : List ℚ) (a : ℚ) :
    xs.foldl max a = a ∨ xs.foldl max a ∈ xs := by
  induction xs generalizing a with
  | nil => exact Or.inl rfl
  | cons y ys ih =>
    have : (y :: ys).foldl max a = ys.foldl max (max a y) := rfl
    rw [this]
    rcases ih (max a y) with heq | hmem
    · rw [heq]
      rcases max_choice a y with h | h
      · exact Or.inl h
      · exact Or.inr (by rw [h]; exact List.mem_cons_self _ _)
    · exact Or.inr (List.mem_cons_of_mem _ hmem)

theorem npMin_mem {l : List ℚ} (h : l ≠ []) : npMin l ∈ l := by
  match l with
  | [] => exact absurd rfl h
  | x :: xs =>
    rcases foldl_min_choice xs x with heq | hmem
    · rw [npMin, heq]; exact List.mem_cons_self _ _
    · exact List.mem_cons_of_mem _ (by rw [npMin]; exact hmem)

theorem npMin_le {l : List ℚ} {x : ℚ} (h : x ∈ l) : npMin l ≤ x := by
  match l with
  | [] => cases h
  | y :: ys =>
    rcases List.mem_cons.mp h with rfl | hmem
    · exact le_trans (foldl_min_le_init ys x) (le_refl x)
    · exact foldl_min_le_mem y hmem

theorem npMax_mem {l : List ℚ} (h : l ≠ []) : npMax l ∈ l := by
  match l with
  | [] => exact absurd rfl h
  | x :: xs =>
    rcases foldl_max_choice xs x with heq | hmem
    · rw [npMax, heq]; exact List.mem_cons_self _ _
    · exact List.mem_cons_of_mem _ (by rw [npMax]; exact hmem)

theorem le_npMax {l : List ℚ} {x : ℚ} (h : x ∈ l) : x ≤ npMax l := by
  match l with
  | [] => cases h
  | y :: ys =>
    rcases List.mem_cons.mp h with rfl | hmem
    · exact init_le_foldl_max ys x
    · exact mem_le_foldl_max y hmem

theorem mul_length_le_sum {c : ℚ} {l : List ℚ} (h : ∀ x ∈ l, c ≤ x) :
    c * l.length ≤ l.sum := by
  induction l with
  | nil => simp
  | cons x xs ih =>
    have hx := h x (List.mem_cons_self _ _)
    have hxs := ih (fun y hy => h y (List.mem_cons_of_mem _ hy))
    simp only [List.sum_cons, List.length_cons]
    push_cast
    linarith

theorem sum_le_mul_length {c : ℚ} {l : List ℚ} (h : ∀ x ∈ l, x ≤ c) :
    l.sum ≤ c * l.length := by
  induction l with
  | nil => simp
  | cons x xs ih =>
    have hx := h x (List.mem_cons_self _ _)
    have hxs := ih (fun y hy => h y (List.mem_cons_of_mem _ hy))
    simp only [List.sum_cons, List.length_cons]
    push_cast
    linarith

theorem npMin_le_npMean {l : List ℚ} (h : l ≠ []) : npMin l ≤ npMean l := by
  have hl : 0 < (l.length : ℚ) := by
    exact_mod_cast List.length_pos.mpr h
  rw [npMean, le_div_iff₀ hl]
  exact mul_length_le_sum (fun x hx => npMin_le hx)

theorem npMean_le_npMax {l : List ℚ} (h : l ≠ []) : npMean l ≤ npMax l := by
  have hl : 0 < (l.length : ℚ) := by
    exact_mod_cast List.length_pos.mpr h
  rw [npMean, div_le_iff₀ hl]
  exact sum_le_mul_length (fun x hx => le_npMax hx)

theorem finiteVals_length_le (l : List FloatVal) :
    (finiteVals l).length ≤ l.length := by
  induction l with
  | nil => simp [finiteVals]
  | cons v vs ih =>
    cases v <;> simp [finiteVals, List.filterMap_cons] at ih ⊢ <;> omega

theorem finiteVals_map_fin (l : List ℚ) : finiteVals (l.map FloatVal.fin) = l := by
  induction l with
  | nil => rfl
  | cons x xs ih => simp [finiteVals, List.filterMap_cons] at ih ⊢; exact ih

theorem getD_eq_of_forall_mem {l : List ℚ} {c : ℚ} (h : ∀ x ∈ l, x = c)
    {i : ℕ} (hi : i < l.length) : l.getD i 0 = c := by
  induction l generalizing i with
  | nil => simp at hi
  | cons y ys ih =>
    cases i with
    | zero => simpa using h y (List.mem_cons_self _ _)
    | succ j =>
      rw [List.getD_cons_succ]
      exact ih (fun x hx => h x (List.mem_cons_of_mem _ hx))
        (by simpa using Nat.lt_of_succ_lt_succ hi)

theorem polyfitSlope_const {l : List ℚ} {c : ℚ} (h : ∀ x ∈ l, x = c) :
    polyfitSlope l = 0 := by
  simp only [polyfitSlope]
  have hsy : (∑ i ∈ Finset.range l.length, l.getD i 0) = (l.length : ℚ) * c := by
    rw [Finset.sum_congr rfl
      (fun i hi => getD_eq_of_forall_mem h (Finset.mem_range.mp hi))]
    simp [Finset.sum_const, Finset.card_range, nsmul_eq_mul]
  have hsxy : (∑ i ∈ Finset.range l.length, (i : ℚ) * l.getD i 0)
      = (∑ i ∈ Finset.range l.length, (i : ℚ)) * c := by
    rw [Finset.sum_congr rfl (fun i hi => by
      rw [getD_eq_of_forall_mem h (Finset.mem_range.mp hi)])]
    rw [← Finset.sum_mul]
  rw [hsy, hsxy]
  have hzero : (l.length : ℚ) * ((∑ i ∈ Finset.range l.length, (i : ℚ)) * c)
      - (∑ i ∈ Finset.range l.length, (i : ℚ)) * ((l.length : ℚ) * c) = 0 := by
    ring
  rw [hzero, zero_div]

theorem le_npClip {x lo hi : ℚ} : lo ≤ npClip x lo hi := le_max_left _ _

theorem npClip_le {x lo hi : ℚ} (h : lo ≤ hi) : npClip x lo hi ≤ hi :=
  max_le h (min_le_right _ _)

theorem calculateTrend_bounds (values : List ℚ) :
    -1 ≤ calculateTrend values ∧ calculateTrend values ≤ 1 := by
  unfold calculateTrend
  split
  · norm_num
  · exact ⟨le_npClip, npClip_le (by norm_num)⟩

theorem calculateTrend_const {l : List ℚ} {c : ℚ} (h : ∀ x ∈ l, x = c) :
    calculateTrend l = 0 := by
  unfold calculateTrend
  split
  · rfl
  · rw [polyfitSlope_const h]
    norm_num [npClip]

theorem generateHealthRecommendations_ne_nil (health_score : ℚ)
    (features : FieldFeatures) :
    generateHealthRecommendations health_score features ≠ [] := by
  simp only [generateHealthRecommendations]
  split_ifs <;> simp_all

/-- C1: `predict_field_health` is modelled as a total function (the source
wraps its whole body in `try/except Exception`, so it raises nothing to its
caller); whenever any step of the path fails — models not loaded, an empty
reading sequence, or a scorer exception — it returns exactly the fixed
fallback record {75.0, 60.0, the two documented recommendation strings, the
one documented risk factor, empty timestamp}. -/
theorem predict_field_health_total_fallback
    (eng : AgriculturalInference) (sensor_data : List SensorReading)
    (h : eng.models_loaded = false ∨ sensor_data = [] ∨
      ∃ msg, eng.cnn (extractHealthFeatures sensor_data) = .error msg) :
    predictFieldHealth eng sensor_data =
      { health_score := 75.0
        confidence := 60.0
        recommendations := ["Monitor field conditions closely", "Check sensor readings"]
        risk_factors := ["Data processing error"]
        timestamp := "" } := by
  rcases h with h | h | ⟨msg, h⟩
  · simp [predictFieldHealth, h, fallbackHealthPrediction]
  · subst h
    cases hm : eng.models_loaded <;>
      simp [predictFieldHealth, hm, fallbackHealthPrediction]
  · cases hm : eng.models_loaded
    · simp [predictFieldHealth, hm, fallbackHealthPrediction]
    · by_cases he : sensor_data.isEmpty
      · simp [predictFieldHealth, hm, he, fallbackHealthPrediction]
      · simp [predictFieldHealth, hm, he, h, fallbackHealthPrediction]

/-- Witness for C1: the empty reading sequence yields exactly the fallback
record. -/
theorem predict_field_health_total_fallback_witness :
    predictFieldHealth engOk [] =
      { health_score := 75.0
        confidence := 60.0
        recommendations := ["Monitor field conditions closely", "Check sensor readings"]
        risk_factors := ["Data processing error"]
        timestamp := "" } :=
  predict_field_health_total_fallback engOk [] (Or.inr (Or.inl rfl))

/-- C2 counterexample: for the non-empty reading list `[emptyReading]`, an
engine whose model artefacts failed to load (a state the source reaches when
deserialisation raises) returns the fallback record whose confidence is 60,
outside the claimed interval [70, 95]. -/
theorem predict_field_health_confidence_counterexample :
    [emptyReading] ≠ [] ∧
    (predictFieldHealth engNoModels [emptyReading]).confidence < 70 := by
  refine ⟨by simp, ?_⟩
  norm_num [predictFieldHealth, engNoModels, fallbackHealthPrediction]

/-- C2 (amended): the recommendations list is non-empty for every input;
and whenever the models are loaded, the readings are non-empty and the health
scorer succeeds with a raw score in [0, 1] (its sigmoid output range), the
returned health_score lies in [0, 100] and the confidence in [70, 95].  On a
scorer failure the fallback (confidence 60) is returned instead, which is why
the confidence bound needs the success hypothesis. -/
theorem predict_field_health_ranges
    (eng : AgriculturalInference) (sensor_data : List SensorReading) :
    (predictFieldHealth eng sensor_data).recommendations ≠ [] ∧
    (∀ s : ℚ, eng.models_loaded = true → sensor_data ≠ [] →
      eng.cnn (extractHealthFeatures sensor_data) = .ok s → 0 ≤ s → s ≤ 1 →
      0 ≤ (predictFieldHealth eng sensor_data).health_score ∧
      (predictFieldHealth eng sensor_data).health_score ≤ 100 ∧
      70 ≤ (predictFieldHealth eng sensor_data).confidence ∧
      (predictFieldHealth eng sensor_data).confidence ≤ 95) := by
  constructor
  · cases hm : eng.models_loaded
    · simp [predictFieldHealth, hm, fallbackHealthPrediction]
    · by_cases he : sensor_data.isEmpty
      · simp [predictFieldHealth, hm, he, fallbackHealthPrediction]
      · cases hc : eng.cnn (extractHealthFeatures sensor_data) with
        | error e => simp [predictFieldHealth, hm, he, hc, fallbackHealthPrediction]
        | ok p =>
          simp only [predictFieldHealth, hm, he, hc, Bool.false_eq_true,
            if_false, Bool.true_eq_false]
          exact generateHealthRecommendations_ne_nil _ _
  · intro s hm hne hc h0 h1
    have he : sensor_data.isEmpty = false := by
      cases sensor_data
      · exact absurd rfl hne
      · rfl
    simp only [predictFieldHealth, hm, he, hc, Bool.false_eq_true, if_false,
      Bool.true_eq_false]
    refine ⟨?_, ?_, ?_, ?_⟩
    · have := le_round1 (n := 0) (x := s * 100) (by push_cast; nlinarith)
      exact_mod_cast this
    · have := round1_le (n := 100) (x := s * 100) (by push_cast; nlinarith)
      exact_mod_cast this
    · have h70 : ((70 : ℤ) : ℚ) ≤ min 95 (max 70 (s * 100)) := by
        push_cast
        exact le_min (by norm_num) (le_max_left _ _)
      have := le_round1 h70
      exact_mod_cast this
    · have h95 : min 95 (max 70 (s * 100)) ≤ ((95 : ℤ) : ℚ) := by
        push_cast
        exact min_le_left _ _
      have := round1_le h95
      exact_mod_cast this

/-- Witness for C2 (amended): a loaded engine whose scorer returns 1/2 on one
concrete reading. -/
theorem predict_field_health_ranges_witness :
    (predictFieldHealth engOk [sampleReading]).recommendations ≠ [] ∧
    0 ≤ (predictFieldHealth engOk [sampleReading]).health_score ∧
    (predictFieldHealth engOk [sampleReading]).health_score ≤ 100 ∧
    70 ≤ (predictFieldHealth engOk [sampleReading]).confidence ∧
    (predictFieldHealth engOk [sampleReading]).confidence ≤ 95 := by
  have h := predict_field_health_ranges engOk [sampleReading]
  exact ⟨h.1, h.2 (1/2) rfl (by simp) rfl (by norm_num) (by norm_num)⟩

/-- C7 counterexample: a loaded engine whose LSTM head (a linear output layer
in the source, hence unconstrained in sign) emits the raw value -5 makes
`predict_yield` return yield_per_hectare = -5 < 0, refuting the claimed
nonnegativity; the code applies no clamp to the raw yield. -/
theorem predict_yield_negative_counterexample :
    (predictYield engNegYield emptyGrowthData).yield_per_hectare < 0 := by
  norm_num [predictYield, engNegYield, round1, roundHalfEven]

/-- C7 (amended): `predict_yield` always returns trend "stable"; on any
failure (models not loaded or a forecaster exception) it returns the fixed
fallback {85.0, 60.0, three default factors, "stable", two generic
recommendations}; and when the forecaster succeeds with raw value y the
returned yield is `round(y, 1)` — nonnegative whenever y is, but not clamped —
and the confidence is `round(min(90, max(65, y*0.8)), 1)`, which lies in
[65, 90].  The unconditional claims fail on the fallback path (confidence 60)
and for negative raw forecasts. -/
theorem predict_yield_amended (eng : AgriculturalInference) (g : GrowthData) :
    (predictYield eng g).trend = "stable" ∧
    ((eng.models_loaded = false ∨ ∃ msg, eng.lstm g = .error msg) →
      predictYield eng g = fallbackYieldPrediction) ∧
    (∀ y : ℚ, eng.models_loaded = true → eng.lstm g = .ok y →
      (predictYield eng g).yield_per_hectare = round1 y ∧
      (0 ≤ y → 0 ≤ (predictYield eng g).yield_per_hectare) ∧
      (predictYield eng g).confidence = round1 (min 90 (max 65 (y * 0.8))) ∧
      65 ≤ (predictYield eng g).confidence ∧
      (predictYield eng g).confidence ≤ 90) := by
  refine ⟨?_, ?_, ?_⟩
  · cases hm : eng.models_loaded
    · simp [predictYield, hm, fallbackYieldPrediction]
    · cases hl : eng.lstm g <;>
        simp [predictYield, hm, hl, fallbackYieldPrediction, calculateYieldTrend]
  · rintro (hm | ⟨msg, hl⟩)
    · simp [predictYield, hm]
    · cases hm : eng.models_loaded
      · simp [predictYield, hm]
      · simp [predictYield, hm, hl]
  · intro y hm hl
    have hrec : predictYield eng g =
        { yield_per_hectare := round1 y
          confidence := round1 (min 90 (max 65 (y * 0.8)))
          key_factors := analyzeYieldFactors g
          trend := calculateYieldTrend g
          recommendations :=
            generateYieldRecommendations y (analyzeYieldFactors g) } := by
      simp [predictYield, hm, hl]
    rw [hrec]
    refine ⟨rfl, ?_, rfl, ?_, ?_⟩
    · intro hy
      have := le_round1 (n := 0) (x := y) (by exact_mod_cast hy)
      exact_mod_cast this
    · have h65 : ((65 : ℤ) : ℚ) ≤ min 90 (max 65 (y * 0.8)) := by
        push_cast
        exact le_min (by norm_num) (le_max_left _ _)
      have := le_round1 h65
      exact_mod_cast this
    · have h90 : min 90 (max 65 (y * 0.8)) ≤ ((90 : ℤ) : ℚ) := by
        push_cast
        exact min_le_left _ _
      have := round1_le h90
      exact_mod_cast this

/-- Witness for C7 (amended): a loaded engine whose forecaster returns 100. -/
theorem predict_yield_amended_witness :
    (predictYield engOk emptyGrowthData).trend = "stable" ∧
    (predictYield engOk emptyGrowthData).yield_per_hectare = round1 100 ∧
    0 ≤ (predictYield engOk emptyGrowthData).yield_per_hectare ∧
    65 ≤ (predictYield engOk emptyGrowthData).confidence ∧
    (predictYield engOk emptyGrowthData).confidence ≤ 90 := by
  have h := predict_yield_amended engOk emptyGrowthData
  have h3 := h.2.2 100 rfl rfl
  exact ⟨h.1, h3.1, h3.2.1 (by norm_num), h3.2.2.2.1, h3.2.2.2.2⟩

/-- C6: for every non-empty reading sequence, feature extraction substitutes
the defaults (temperature 20, humidity 50, soil_moisture 40, ph 6.5) for
omitted attributes — so every feature is a defined number — computes
moisture_trend as the least-squares slope over reading indices divided by 10
and clipped to [-1, 1] (0.0 for fewer than 2 readings, hence also 0.0 for
constant soil-moisture input), and computes
ph_stability = 1 / (std(ph) + 0.1), which is always defined and positive. -/
theorem extract_health_features_spec
    (sensor_data : List SensorReading) (_h : sensor_data ≠ []) :
    (extractHealthFeatures sensor_data).avg_temperature
      = npMean (sensor_data.map (fun d => d.temperature.getD 20)) ∧
    (extractHealthFeatures sensor_data).avg_humidity
      = npMean (sensor_data.map (fun d => d.humidity.getD 50)) ∧
    (extractHealthFeatures sensor_data).avg_soil_moisture
      = npMean (sensor_data.map (fun d => d.soil_moisture.getD 40)) ∧
    (extractHealthFeatures sensor_data).avg_ph
      = npMean (sensor_data.map (fun d => d.ph_level.getD 6.5)) ∧
    (extractHealthFeatures sensor_data).moisture_trend
      = calculateTrend (sensor_data.map (fun d => d.soil_moisture.getD 40)) ∧
    (-1 ≤ (extractHealthFeatures sensor_data).moisture_trend ∧
      (extractHealthFeatures sensor_data).moisture_trend ≤ 1) ∧
    (sensor_data.length < 2 → (extractHealthFeatures sensor_data).moisture_trend = 0) ∧
    (∀ c : ℚ, (∀ d ∈ sensor_data, d.soil_moisture.getD 40 = c) →
      (extractHealthFeatures sensor_data).moisture_trend = 0) ∧
    (extractHealthFeatures sensor_data).ph_stability
      = 1 / (npStd (sensor_data.map (fun d => d.ph_level.getD 6.5)) + 0.1) ∧
    0 < (extractHealthFeatures sensor_data).ph_stability := by
  have e1 : (extractHealthFeatures sensor_data).avg_temperature
      = npMean (sensor_data.map (fun d => d.temperature.getD 20)) := rfl
  have e2 : (extractHealthFeatures sensor_data).avg_humidity
      = npMean (sensor_data.map (fun d => d.humidity.getD 50)) := rfl
  have e3 : (extractHealthFeatures sensor_data).avg_soil_moisture
      = npMean (sensor_data.map (fun d => d.soil_moisture.getD 40)) := rfl
  have e4 : (extractHealthFeatures sensor_data).avg_ph
      = npMean (sensor_data.map (fun d => d.ph_level.getD 6.5)) := rfl
  have e5 : (extractHealthFeatures sensor_data).moisture_trend
      = calculateTrend (sensor_data.map (fun d => d.soil_moisture.getD 40)) := rfl
  have e9 : (extractHealthFeatures sensor_data).ph_stability
      = 1 / (npStd (sensor_data.map (fun d => d.ph_level.getD 6.5)) + 0.1) := rfl
  have hb := calculateTrend_bounds (sensor_data.map (fun d => d.soil_moisture.getD 40))
  have hb1 : -1 ≤ (extractHealthFeatures sensor_data).moisture_trend := by
    rw [e5]; exact hb.1
  have hb2 : (extractHealthFeatures sensor_data).moisture_trend ≤ 1 := by
    rw [e5]; exact hb.2
  have himp : sensor_data.length < 2 →
      (extractHealthFeatures sensor_data).moisture_trend = 0 := by
    intro h2
    have hl : (sensor_data.map (fun d => d.soil_moisture.getD 40)).length < 2 := by
      simpa using h2
    rw [e5]
    unfold calculateTrend
    rw [if_pos hl]
  have hconst : ∀ c : ℚ, (∀ d ∈ sensor_data, d.soil_moisture.getD 40 = c) →
      (extractHealthFeatures sensor_data).moisture_trend = 0 := by
    intro c hc
    rw [e5]
    apply calculateTrend_const
    intro x hx
    obtain ⟨d, hd, rfl⟩ := List.mem_map.mp hx
    exact hc d hd
  have hpos : 0 < (extractHealthFeatures sensor_data).ph_stability := by
    rw [e9]
    have hp : (0:ℝ) < npStd (sensor_data.map (fun d => d.ph_level.getD 6.5)) + 0.1 := by
      unfold npStd
      positivity
    exact one_div_pos.mpr hp
  exact ⟨e1, e2, e3, e4, e5, ⟨hb1, hb2⟩, himp, hconst, e9, hpos⟩

/-- Witness for C6: a single reading with every attribute missing — all
defaults are taken, the trend is 0 (fewer than 2 readings) and ph_stability is
positive. -/
theorem extract_health_features_spec_witness :
    (extractHealthFeatures [emptyReading]).moisture_trend = 0 ∧
    0 < (extractHealthFeatures [emptyReading]).ph_stability ∧
    (extractHealthFeatures [emptyReading]).avg_temperature = npMean [20] := by
  obtain ⟨h1, h2, h3, h4, h5, h6, h7, h8, h9, h10⟩ :=
    extract_health_features_spec [emptyReading] (by simp)
  exact ⟨h7 (by norm_num), h10, by rw [h1]; rfl⟩

/-- C8: the health recommendation rules are evaluated in declared order,
appending each firing rule's message; when both the low-score and
low-moisture rules fire their messages appear in that order; when no rule
fires the output is exactly the two canonical "conditions optimal" messages,
so the output is never empty. -/
theorem health_recommendations_order (health_score : ℚ) (features : FieldFeatures) :
    generateHealthRecommendations health_score features ≠ [] ∧
    ((health_score < 70 ∨ features.avg_soil_moisture < 40 ∨
        (features.avg_ph < 6.0 ∨ features.avg_ph > 7.0) ∨
        features.temp_variance > 50) →
      generateHealthRecommendations health_score features =
        (if health_score < 70 then
          ["Immediate intervention required", "Increase monitoring frequency"]
         else []) ++
        (if features.avg_soil_moisture < 40 then ["Increase irrigation"] else []) ++
        (if features.avg_ph < 6.0 ∨ features.avg_ph > 7.0 then
          ["Adjust soil pH levels"] else []) ++
        (if features.temp_variance > 50 then
          ["Monitor temperature stability"] else [])) ∧
    (health_score < 70 → features.avg_soil_moisture < 40 →
      (generateHealthRecommendations health_score features).take 3 =
        ["Immediate intervention required", "Increase monitoring frequency",
          "Increase irrigation"]) ∧
    (¬(health_score < 70) → ¬(features.avg_soil_moisture < 40) →
      ¬(features.avg_ph < 6.0 ∨ features.avg_ph > 7.0) →
      ¬(features.temp_variance > 50) →
      generateHealthRecommendations health_score features =
        ["Field conditions are optimal", "Continue current management practices"]) := by
  refine ⟨generateHealthRecommendations_ne_nil _ _, ?_, ?_, ?_⟩
  · intro hfire
    simp only [generateHealthRecommendations]
    split_ifs <;> simp_all
  · intro h1 h2
    simp only [generateHealthRecommendations]
    split_ifs <;> simp_all
  · intro h1 h2 h3 h4
    simp only [generateHealthRecommendations]
    split_ifs <;> simp_all

/-- Witness for C8: with score 60 and moisture 30 both leading rules fire in
declared order; with score 80 and in-range features the canonical two-message
output is produced. -/
theorem health_recommendations_order_witness :
    (generateHealthRecommendations 60 featuresLow).take 3 =
      ["Immediate intervention required", "Increase monitoring frequency",
        "Increase irrigation"] ∧
    generateHealthRecommendations 80 featuresOpt =
      ["Field conditions are optimal", "Continue current management practices"] := by
  refine ⟨(health_recommendations_order 60 featuresLow).2.2.1 (by norm_num) ?_,
    (health_recommendations_order 80 featuresOpt).2.2.2 (by norm_num) ?_ ?_ ?_⟩
  · show featuresLow.avg_soil_moisture < 40
    norm_num [featuresLow]
  · show ¬(featuresOpt.avg_soil_moisture < 40)
    norm_num [featuresOpt]
  · show ¬(featuresOpt.avg_ph < 6.0 ∨ featuresOpt.avg_ph > 7.0)
    norm_num [featuresOpt]
  · show ¬(featuresOpt.temp_variance > 50)
    norm_num [featuresOpt]


/-- C4 counterexample: for the pixel red = nir = 0 the computed index is the
sentinel 0 — a finite value — so in the statistics over the resulting raster
that pixel IS counted among the valid (finite) pixels (valid_pixels is 1, not
0), contrary to the claim that it does not propagate into the statistics. -/
theorem compute_index_sentinel_counterexample :
    computeIndexPixel 0 0 = 0 ∧
    (getNdviStatistics ((computeIndex bandsZero).map FloatVal.fin)).valid_pixels = 1 := by
  constructor
  · simp [computeIndexPixel]
  · have hmap : (computeIndex bandsZero).map FloatVal.fin = [FloatVal.fin 0] := by
      simp [computeIndex, bandsZero, computeIndexPixel]
    have hval : finiteVals [FloatVal.fin 0] = [0] :=
      finiteVals_map_fin [0]
    rw [hmap]
    simp [getNdviStatistics, hval]

/-- C4 (amended): on a zero denominator `compute_index` yields the sentinel 0
rather than NaN; because that sentinel is the finite value 0, every pixel the
evalscript produces is finite, so sentinel pixels are included among the valid
pixels the statistics are computed over (valid_pixels always equals the full
pixel count for such rasters). -/
theorem compute_index_sentinel_amended (bands : List (ℚ × ℚ)) :
    computeIndexPixel 0 0 = 0 ∧
    (∀ red nir : ℚ, nir + red = 0 → computeIndexPixel red nir = 0) ∧
    (getNdviStatistics ((computeIndex bands).map FloatVal.fin)).valid_pixels
      = bands.length := by
  refine ⟨by simp [computeIndexPixel], fun red nir h => by simp [computeIndexPixel, h], ?_⟩
  have hfin : finiteVals ((computeIndex bands).map FloatVal.fin) = computeIndex bands :=
    finiteVals_map_fin _
  by_cases h : (finiteVals ((computeIndex bands).map FloatVal.fin)).length = 0
  · have hlen : bands.length = 0 := by
      rw [hfin] at h
      simpa [computeIndex] using h
    have hz : getNdviStatistics ((computeIndex bands).map FloatVal.fin) =
        { mean := 0, min := 0, max := 0, std := 0, valid_pixels := 0,
          total_pixels := ((computeIndex bands).map FloatVal.fin).length } := by
      simp [getNdviStatistics, h]
    rw [hz, hlen]
  · have hs : (getNdviStatistics ((computeIndex bands).map FloatVal.fin)).valid_pixels
        = (finiteVals ((computeIndex bands).map FloatVal.fin)).length := by
      simp [getNdviStatistics, h]
    rw [hs, hfin]
    simp [computeIndex]

/-- Witness for C4 (amended): the two-pixel raster with one zero-denominator
pixel has both pixels counted valid. -/
theorem compute_index_sentinel_amended_witness :
    computeIndexPixel 0 0 = 0 ∧
    (getNdviStatistics ((computeIndex bandsTwo).map FloatVal.fin)).valid_pixels = 2 := by
  have h := compute_index_sentinel_amended bandsTwo
  exact ⟨h.2.1 0 0 (by norm_num), by rw [h.2.2]; rfl⟩

/-- C5: the statistics operation filters to finite values only; with no finite
value it returns exactly the all-zero record with the array's element count as
total_pixels (not an error); otherwise it returns the mean, the minimum, the
maximum and the population standard deviation of the finite subset together
with the valid and total pixel counts. -/
theorem ndvi_statistics_spec (ndvi_array : List FloatVal) :
    (getNdviStatistics ndvi_array).total_pixels = ndvi_array.length ∧
    (getNdviStatistics ndvi_array).valid_pixels = (finiteVals ndvi_array).length ∧
    (finiteVals ndvi_array = [] →
      getNdviStatistics ndvi_array =
        { mean := 0, min := 0, max := 0, std := 0, valid_pixels := 0,
          total_pixels := ndvi_array.length }) ∧
    (finiteVals ndvi_array ≠ [] →
      (getNdviStatistics ndvi_array).mean
          = (finiteVals ndvi_array).sum / (finiteVals ndvi_array).length ∧
      (getNdviStatistics ndvi_array).min ∈ finiteVals ndvi_array ∧
      (∀ x ∈ finiteVals ndvi_array, (getNdviStatistics ndvi_array).min ≤ x) ∧
      (getNdviStatistics ndvi_array).max ∈ finiteVals ndvi_array ∧
      (∀ x ∈ finiteVals ndvi_array, x ≤ (getNdviStatistics ndvi_array).max) ∧
      (getNdviStatistics ndvi_array).std
          = Real.sqrt (npVar (finiteVals ndvi_array))) := by
  by_cases h : (finiteVals ndvi_array).length = 0
  · have hnil : finiteVals ndvi_array = [] := List.length_eq_zero.mp h
    have hz : getNdviStatistics ndvi_array =
        { mean := 0, min := 0, max := 0, std := 0, valid_pixels := 0,
          total_pixels := ndvi_array.length } := by
      simp [getNdviStatistics, h]
    refine ⟨by rw [hz], by rw [hz, hnil]; rfl, fun _ => hz, fun hne => absurd hnil hne⟩
  · have hne : finiteVals ndvi_array ≠ [] := by
      intro he
      rw [he] at h
      exact h rfl
    have hs : getNdviStatistics ndvi_array =
        { mean := npMean (finiteVals ndvi_array)
          min := npMin (finiteVals ndvi_array)
          max := npMax (finiteVals ndvi_array)
          std := npStd (finiteVals ndvi_array)
          valid_pixels := (finiteVals ndvi_array).length
          total_pixels := ndvi_array.length } := by
      simp [getNdviStatistics, h]
    refine ⟨by rw [hs], by rw [hs], fun he => absurd he hne, fun _ => ?_⟩
    rw [hs]
    exact ⟨rfl, npMin_mem hne, fun x hx => npMin_le hx, npMax_mem hne,
      fun x hx => le_npMax hx, rfl⟩

/-- Witness for C5: a raster mixing finite and NaN pixels. -/
theorem ndvi_statistics_spec_witness :
    (getNdviStatistics arrMixed).total_pixels = 3 ∧
    (getNdviStatistics arrMixed).mean
      = (finiteVals arrMixed).sum / (finiteVals arrMixed).length ∧
    (getNdviStatistics arrMixed).min ∈ finiteVals arrMixed := by
  obtain ⟨h1, h2, h3, h4⟩ := ndvi_statistics_spec arrMixed
  have h4x := h4 (by decide)
  exact ⟨by rw [h1]; rfl, h4x.1, h4x.2.1⟩

/-- C10: the statistics record is internally consistent — total_pixels equals
the input element count, valid_pixels never exceeds it, and with at least one
valid pixel the returned min, mean and max are ordered. -/
theorem ndvi_statistics_consistent (ndvi_array : List FloatVal) :
    (getNdviStatistics ndvi_array).total_pixels = ndvi_array.length ∧
    (getNdviStatistics ndvi_array).valid_pixels
      ≤ (getNdviStatistics ndvi_array).total_pixels ∧
    (0 < (getNdviStatistics ndvi_array).valid_pixels →
      (getNdviStatistics ndvi_array).min ≤ (getNdviStatistics ndvi_array).mean ∧
      (getNdviStatistics ndvi_array).mean ≤ (getNdviStatistics ndvi_array).max) := by
  by_cases h : (finiteVals ndvi_array).length = 0
  · have hz : getNdviStatistics ndvi_array =
        { mean := 0, min := 0, max := 0, std := 0, valid_pixels := 0,
          total_pixels := ndvi_array.length } := by
      simp [getNdviStatistics, h]
    rw [hz]
    exact ⟨rfl, Nat.zero_le _, fun hv => absurd hv (by norm_num)⟩
  · have hne : finiteVals ndvi_array ≠ [] := by
      intro he
      rw [he] at h
      exact h rfl
    have hs : getNdviStatistics ndvi_array =
        { mean := npMean (finiteVals ndvi_array)
          min := npMin (finiteVals ndvi_array)
          max := npMax (finiteVals ndvi_array)
          std := npStd (finiteVals ndvi_array)
          valid_pixels := (finiteVals ndvi_array).length
          total_pixels := ndvi_array.length } := by
      simp [getNdviStatistics, h]
    rw [hs]
    exact ⟨rfl, finiteVals_length_le _,
      fun _ => ⟨npMin_le_npMean hne, npMean_le_npMax hne⟩⟩

/-- Witness for C10: a two-pixel all-finite raster. -/
theorem ndvi_statistics_consistent_witness :
    0 < (getNdviStatistics arrTwo).valid_pixels ∧
    (getNdviStatistics arrTwo).total_pixels = 2 ∧
    (getNdviStatistics arrTwo).min ≤ (getNdviStatistics arrTwo).mean ∧
    (getNdviStatistics arrTwo).mean ≤ (getNdviStatistics arrTwo).max := by
  have h := ndvi_statistics_consistent arrTwo
  have harr : finiteVals arrTwo = [2, 4] := rfl
  have hv : 0 < (getNdviStatistics arrTwo).valid_pixels := by
    have hvp : (getNdviStatistics arrTwo).valid_pixels = 2 := by
      simp [getNdviStatistics, harr]
    rw [hvp]
    norm_num
  have h3 := h.2.2 hv
  exact ⟨hv, by rw [h.1]; rfl, h3.1, h3.2⟩

/-- C9: the visual encoding clips every index value to [-1, 1] before the
affine map ((value + 1) / 2) * 255 to an 8-bit intensity, so values at or
below -1 encode to 0, values at or above 1 encode to 255, the value 0 encodes
to 127 (hence "127 or 128" holds), and every intensity fits in a byte. -/
theorem ndvi_encode_visual_range (v : ℚ) :
    ndviPixelIntensity (-1) = 0 ∧
    ndviPixelIntensity 1 = 255 ∧
    ndviPixelIntensity 0 = 127 ∧
    (v ≤ -1 → ndviPixelIntensity v = 0) ∧
    (1 ≤ v → ndviPixelIntensity v = 255) ∧
    ndviPixelIntensity v ≤ 255 := by
  refine ⟨by norm_num [ndviPixelIntensity, npClip, truncToUint8],
    by norm_num [ndviPixelIntensity, npClip, truncToUint8]; rfl,
    by norm_num [ndviPixelIntensity, npClip, truncToUint8]; rfl, ?_, ?_, ?_⟩
  · intro h
    have hc : npClip v (-1) 1 = -1 := by
      unfold npClip
      rw [min_eq_left (le_trans h (by norm_num)), max_eq_left h]
    norm_num [ndviPixelIntensity, hc, truncToUint8]
  · intro h
    have hc : npClip v (-1) 1 = 1 := by
      unfold npClip
      rw [min_eq_right h, max_eq_right (by norm_num : (-1:ℚ) ≤ 1)]
    norm_num [ndviPixelIntensity, hc, truncToUint8]
    rfl
  · have hcl : npClip v (-1) 1 ≤ 1 := npClip_le (by norm_num)
    have h1 : (npClip v (-1) 1 + 1) / 2 * 255 ≤ 255 := by linarith
    have h2 : ⌊(npClip v (-1) 1 + 1) / 2 * 255⌋ ≤ (255 : ℤ) := by
      have := Int.floor_mono h1
      simpa using this
    exact Int.toNat_le.mpr (by exact_mod_cast h2)

/-- Witness for C9: a below-range index value saturates to 0. -/
theorem ndvi_encode_visual_range_witness :
    ndviPixelIntensity (-2) = 0 ∧ ndviPixelIntensity 0 = 127 := by
  have h := ndvi_encode_visual_range (-2)
  exact ⟨h.2.2.2.1 (by norm_num), h.2.2.1⟩

/-- C3: the validator conditions are as claimed — equal latitude bounds raise
the invalid-bounds 400, latitude 95 raises the range 400, longitude 200 raises
the range 400, inside the endpoint's try block, and the box (10, 5, 20, 15)
passes validation — but the validator failures do NOT reach the caller as
400-class errors: the raised HTTPException is an Exception and not a
ValueError, so the trailing blanket handler catches it and re-raises
HTTPException(500, "NDVI analysis failed: ..."), converting every validation
failure into a 500. -/
theorem ndvi_validation_wrapped_as_500 :
    ndviBody fetchDummy 10 5 10 20 =
      .error (.httpException 400
        "Invalid bounding box: min values must be less than max values") ∧
    getNdviAnalysis fetchDummy 10 5 10 20 =
      .error (500,
        "NDVI analysis failed: 400: Invalid bounding box: min values must be less than max values") ∧
    ndviBody fetchDummy 10 5 95 20 =
      .error (.httpException 400 "Latitude must be between -90 and 90") ∧
    getNdviAnalysis fetchDummy 10 5 95 20 =
      .error (500, "NDVI analysis failed: 400: Latitude must be between -90 and 90") ∧
    ndviBody fetchDummy 10 200 20 210 =
      .error (.httpException 400 "Longitude must be between -180 and 180") ∧
    getNdviAnalysis fetchDummy 10 200 20 210 =
      .error (500, "NDVI analysis failed: 400: Longitude must be between -180 and 180") ∧
    exceptIsOk (getNdviAnalysis fetchDummy 10 5 20 15) = true :=
  ⟨rfl, rfl, rfl, rfl, rfl, rfl, rfl⟩
